import Mathlib

/-!
Verification of the fraud-detection inference service
(`services/ml-service/app.py`) against its specification.

The service holds two pieces of process-wide state set at load time — a
model artifact and a metadata descriptor — and exposes three operations:
`health`, `predict` (scoring) and `get_features` (schema introspection).
We embed the handlers as pure functions over an explicit `ServiceState`.
Python floats are modelled by `PyFloat` (a rational or one of the IEEE
special values NaN, +Inf, -Inf); Python exceptions raised by the opaque
model artifact are modelled by `Except String`, the string being the
result of `str(e)` which the handler's catch-all turns into a 500 body.
-/

namespace FraudDetection

/-- A Python float: either a finite value (modelled exactly as a rational)
or one of the IEEE special values NaN, +infinity, -infinity. -/
inductive PyFloat where
  | fin (q : ℚ)
  | nan
  | inf
  | ninf
deriving DecidableEq, Repr

/-- IEEE-style addition on `PyFloat`: NaN is absorbing, opposite
infinities give NaN, an infinity otherwise dominates, and finite values
add exactly. -/
def PyFloat.add : PyFloat → PyFloat → PyFloat
  | .nan, _ => .nan
  | _, .nan => .nan
  | .inf, .ninf => .nan
  | .ninf, .inf => .nan
  | .inf, _ => .inf
  | _, .inf => .inf
  | .ninf, _ => .ninf
  | _, .ninf => .ninf
  | .fin a, .fin b => .fin (a + b)

/-- Whether a `PyFloat` is finite (neither NaN nor an infinity). -/
def PyFloat.isFinite : PyFloat → Bool
  | .fin _ => true
  | _ => false

/-- The finite value of a `PyFloat` (0 for the special values); used only
to sum distributions that are assumed finite. -/
def PyFloat.finVal : PyFloat → ℚ
  | .fin q => q
  | _ => 0

/-- Sum of the finite values of a list of Python floats. -/
def sumQ (xs : List PyFloat) : ℚ := (xs.map PyFloat.finVal).sum

/-- The metadata descriptor loaded from `model_meta.json`: ordered feature
names, version string, and the optional threshold/quality fields read with
`.get` by the `/features` handler. -/
structure ModelMeta where
  features : List String
  model_version : String
  block_threshold : Option ℚ
  roc_auc : Option ℚ
  pr_auc : Option ℚ
deriving DecidableEq, Repr

/-- The opaque model artifact: `predict_proba` applied to a single row
(the handler passes `np.array([features])` and takes row `[0]`) yields an
ordered class-probability vector, `predict` yields the class label.
Either call may raise a Python exception, modelled as `Except.error` with
the exception's `str(e)` message. -/
structure Artifact where
  predict_proba : List PyFloat → Except String (List PyFloat)
  predict : List PyFloat → Except String Int

/-- The process-wide globals `model` and `model_meta`, both `None` before
`load_model` and both set after a successful load. -/
structure ServiceState where
  model : Option Artifact
  model_meta : Option ModelMeta

/-- Body of the `/health` response. -/
structure HealthResponse where
  status : String
  model_loaded : Bool
  model_version : Option String
deriving DecidableEq, Repr

/-- The `/health` handler: status is UP exactly when `model` is set,
and the version is read from `model_meta` when that is set. -/
def health (s : ServiceState) : HealthResponse :=
  { status := if s.model.isSome then "UP" else "DOWN"
    model_loaded := s.model.isSome
    model_version :=
      match s.model_meta with
      | some meta => some meta.model_version
      | none => none }

/-- The possible responses of the `/predict` handler: the 200 success
body, the 503 model-not-loaded body, the 400 length-mismatch body
(carrying `expected_features`), and the 500 catch-all body carrying
`str(e)` of whatever exception the `try` block raised. -/
inductive PredictResponse where
  | ok (fraud_probability : PyFloat) (prediction : Int)
      (probabilities : List PyFloat) (model_version : String)
  | errNotLoaded
  | errSchema (msg : String) (expected_features : List String)
  | errServer (msg : String)
deriving DecidableEq, Repr

/-- HTTP status code attached to each `/predict` response. -/
def PredictResponse.statusCode : PredictResponse → Nat
  | .ok _ _ _ _ => 200
  | .errNotLoaded => 503
  | .errSchema _ _ => 400
  | .errServer _ => 500

/-- The `error` field of a `/predict` response body, when present. -/
def PredictResponse.errorMsg : PredictResponse → Option String
  | .ok _ _ _ _ => none
  | .errNotLoaded => some "Model not loaded"
  | .errSchema m _ => some m
  | .errServer m => some m

/-- Indexing into a NumPy probability row: out of bounds raises an
IndexError whose message reaches the caller through the catch-all. -/
def npGet (xs : List PyFloat) (i : Nat) : Except String PyFloat :=
  match xs.get? i with
  | some x => Except.ok x
  | none =>
    Except.error ("index " ++ toString i ++
      " is out of bounds for axis 0 with size " ++ toString xs.length)

/-- The 400 error message, from the f-string in the handler. -/
def schemaMsg (expected got : Nat) : String :=
  "Expected " ++ toString expected ++ " features, got " ++ toString got

/-- `str(e)` of the TypeError raised by subscripting the `None` metadata
global inside the `try` block when only the artifact is loaded. -/
def metaNotSubscriptableMsg : String := "NoneType object is not subscriptable"

/-- The fraud-probability aggregation of the handler, keyed solely on the
entry count of the probability row:
`probabilities[1] if len(probabilities) == 2 else
(probabilities[1] + probabilities[2] if len(probabilities) > 2 else
probabilities[1])`; the out-of-range subscripts of the final arm raise. -/
def aggregate (probabilities : List PyFloat) : Except String PyFloat :=
  if probabilities.length = 2 then
    npGet probabilities 1
  else if 2 < probabilities.length then
    match npGet probabilities 1, npGet probabilities 2 with
    | Except.ok x, Except.ok y => Except.ok (x.add y)
    | Except.error e, _ => Except.error e
    | _, Except.error e => Except.error e
  else
    npGet probabilities 1

/-- The body of the `try` block of `/predict` after the model-loaded
check, for a given artifact, metadata and extracted feature list:
length check, `predict_proba`, cardinality-keyed fraud-probability
aggregation, `predict`, success body.  `Except.error` is an escaping
Python exception, caught by the handler's catch-all. -/
def predictTry (model : Artifact) (meta : ModelMeta) (features : List PyFloat) :
    Except String PredictResponse :=
  if features.length ≠ meta.features.length then
    Except.ok (PredictResponse.errSchema
      (schemaMsg meta.features.length features.length) meta.features)
  else
    match model.predict_proba features with
    | Except.error e => Except.error e
    | Except.ok probabilities =>
      match aggregate probabilities with
      | Except.error e => Except.error e
      | Except.ok fraud_probability =>
        match model.predict features with
        | Except.error e => Except.error e
        | Except.ok prediction =>
          Except.ok (PredictResponse.ok fraud_probability prediction
            probabilities meta.model_version)

/-- The `/predict` handler.  The request body is modelled as the optional
`features` entry of the JSON object: `data.get('features', [])` turns an
absent entry into the empty list.  A `None` metadata global makes the
`model_meta['features']` subscript raise, which the catch-all turns into
a 500. -/
def predict (s : ServiceState) (body : Option (List PyFloat)) : PredictResponse :=
  match s.model with
  | none => PredictResponse.errNotLoaded
  | some model =>
    match s.model_meta with
    | none => PredictResponse.errServer metaNotSubscriptableMsg
    | some meta =>
      match predictTry model meta (body.getD []) with
      | Except.ok r => r
      | Except.error e => PredictResponse.errServer e

/-- The possible responses of the `/features` handler. -/
inductive FeaturesResult where
  | ok (features : List String) (model_version : String)
      (block_threshold : Option ℚ) (roc_auc : Option ℚ) (pr_auc : Option ℚ)
  | errNotLoaded
deriving DecidableEq, Repr

/-- HTTP status code attached to each `/features` response. -/
def FeaturesResult.statusCode : FeaturesResult → Nat
  | .ok _ _ _ _ _ => 200
  | .errNotLoaded => 503

/-- The `/features` handler. -/
def get_features (s : ServiceState) : FeaturesResult :=
  match s.model_meta with
  | none => FeaturesResult.errNotLoaded
  | some meta =>
    FeaturesResult.ok meta.features meta.model_version
      meta.block_threshold meta.roc_auc meta.pr_auc

/-- A request to one of the three endpoints. -/
inductive Request where
  | healthReq
  | featuresReq
  | scoreReq (body : Option (List PyFloat))

/-- A response from one of the three endpoints. -/
inductive Response where
  | healthRes (r : HealthResponse)
  | featuresRes (r : FeaturesResult)
  | scoreRes (r : PredictResponse)
deriving DecidableEq, Repr

/-- Dispatch one request; the pair returns the (unchanged) state
explicitly so that statefulness claims are statable: no handler assigns
the `model` or `model_meta` globals. -/
def handle (s : ServiceState) (r : Request) : Response × ServiceState :=
  match r with
  | Request.healthReq => (Response.healthRes (health s), s)
  | Request.featuresReq => (Response.featuresRes (get_features s), s)
  | Request.scoreReq b => (Response.scoreRes (predict s b), s)

/-- Dispatch a sequence of requests, threading the state. -/
def handleAll (s : ServiceState) : List Request → List Response × ServiceState
  | [] => ([], s)
  | r :: rs =>
    let p := handle s r
    let q := handleAll p.2 rs
    (p.1 :: q.1, q.2)

/-! ### Concrete fixtures used by witnesses and counterexamples -/

/-- A concrete loaded metadata descriptor with three feature names. -/
def meta3 : ModelMeta :=
  ⟨["amount", "hour", "country_risk"], "v1", some (7/10), some (93/100), some (88/100)⟩

/-- A concrete well-typed feature vector of length 3. -/
def feats3 : List PyFloat := [PyFloat.fin 100, PyFloat.fin 12, PyFloat.fin (3/10)]

/-- A binary classifier returning the distribution `[0.9, 0.1]`. -/
def artifact2 : Artifact :=
  ⟨fun _ => Except.ok [PyFloat.fin (9/10), PyFloat.fin (1/10)], fun _ => Except.ok 0⟩

/-- A three-class classifier returning the distribution `[0.7, 0.2, 0.1]`. -/
def artifact3 : Artifact :=
  ⟨fun _ => Except.ok [PyFloat.fin (7/10), PyFloat.fin (2/10), PyFloat.fin (1/10)],
   fun _ => Except.ok 0⟩

/-- A binary classifier whose fraud-class probability is NaN. -/
def artifactNan : Artifact :=
  ⟨fun _ => Except.ok [PyFloat.fin (1/2), PyFloat.nan], fun _ => Except.ok 1⟩

/-- An artifact whose `predict_proba` raises, with one internal message. -/
def artifactRaiseA : Artifact :=
  ⟨fun _ => Except.error "ValueError: Input contains infinity or a value too large",
   fun _ => Except.ok 0⟩

/-- An artifact whose `predict_proba` raises, with a different internal message. -/
def artifactRaiseB : Artifact :=
  ⟨fun _ => Except.error "XGBoostError: value 0 for Parameter num_class should be greater equal to 1",
   fun _ => Except.ok 0⟩

/-- A degenerate classifier returning a single-entry distribution. -/
def artifact1 : Artifact :=
  ⟨fun _ => Except.ok [PyFloat.fin 1], fun _ => Except.ok 0⟩

/-- A binary classifier returning the distribution `[0, 1]`. -/
def artifactUnit : Artifact :=
  ⟨fun _ => Except.ok [PyFloat.fin 0, PyFloat.fin 1], fun _ => Except.ok 1⟩

/-! ### Step lemmas about the handler pipeline -/

/-- In-bounds NumPy subscripts return the element. -/
theorem npGet_ok (xs : List PyFloat) (i : Nat) (x : PyFloat)
    (h : xs.get? i = some x) : npGet xs i = Except.ok x := by
  unfold npGet
  rw [h]

/-- Out-of-bounds NumPy subscripts raise an IndexError. -/
theorem npGet_oob (xs : List PyFloat) (i : Nat) (h : xs.length ≤ i) :
    npGet xs i = Except.error ("index " ++ toString i ++
      " is out of bounds for axis 0 with size " ++ toString xs.length) := by
  unfold npGet
  rw [List.get?_eq_none.mpr h]

/-- Aggregation on a 2-entry distribution picks index 1. -/
theorem aggregate_two (probs : List PyFloat) (p1 : PyFloat)
    (h2 : probs.length = 2) (h1 : probs.get? 1 = some p1) :
    aggregate probs = Except.ok p1 := by
  unfold aggregate
  rw [if_pos h2, npGet_ok _ _ _ h1]

/-- Aggregation on a distribution of 3 or more entries adds indices 1 and 2. -/
theorem aggregate_three (probs : List PyFloat) (p1 p2 : PyFloat)
    (h3 : 3 ≤ probs.length) (h1 : probs.get? 1 = some p1)
    (h2 : probs.get? 2 = some p2) :
    aggregate probs = Except.ok (p1.add p2) := by
  have hne : ¬ probs.length = 2 := by omega
  have hlt : 2 < probs.length := by omega
  unfold aggregate
  rw [if_neg hne, if_pos hlt, npGet_ok _ _ _ h1, npGet_ok _ _ _ h2]

/-- Aggregation on a distribution of fewer than 2 entries raises the
IndexError of the subscript `probabilities[1]`. -/
theorem aggregate_short (probs : List PyFloat) (hlt : probs.length < 2) :
    aggregate probs = Except.error ("index " ++ toString 1 ++
      " is out of bounds for axis 0 with size " ++ toString probs.length) := by
  have hne : ¬ probs.length = 2 := by omega
  have hnlt : ¬ 2 < probs.length := by omega
  unfold aggregate
  rw [if_neg hne, if_neg hnlt, npGet_oob _ _ (by omega)]

/-- The try block on a correct-length vector, with successful artifact
calls and successful aggregation, produces the success body. -/
theorem predictTry_run (a : Artifact) (meta : ModelMeta)
    (feats probs : List PyFloat) (c : Int) (fp : PyFloat)
    (hlen : feats.length = meta.features.length)
    (hp : a.predict_proba feats = Except.ok probs)
    (hagg : aggregate probs = Except.ok fp)
    (hc : a.predict feats = Except.ok c) :
    predictTry a meta feats =
      Except.ok (PredictResponse.ok fp c probs meta.model_version) := by
  unfold predictTry
  rw [if_neg (not_not_intro hlen)]
  simp only [hp, hagg, hc]

/-- The `/predict` handler on a fully loaded state unfolds to the try
block with the catch-all around it. -/
theorem predict_loaded (a : Artifact) (meta : ModelMeta)
    (body : Option (List PyFloat)) :
    predict ⟨some a, some meta⟩ body =
      match predictTry a meta (body.getD []) with
      | Except.ok r => r
      | Except.error e => PredictResponse.errServer e := rfl

/-- A `/predict` request on a fully loaded state whose try block ends in
the success body returns it with status 200. -/
theorem predict_success (a : Artifact) (meta : ModelMeta)
    (feats probs : List PyFloat) (c : Int) (fp : PyFloat)
    (hlen : feats.length = meta.features.length)
    (hp : a.predict_proba feats = Except.ok probs)
    (hagg : aggregate probs = Except.ok fp)
    (hc : a.predict feats = Except.ok c) :
    predict ⟨some a, some meta⟩ (some feats) =
      PredictResponse.ok fp c probs meta.model_version := by
  rw [predict_loaded, Option.getD_some,
    predictTry_run a meta feats probs c fp hlen hp hagg hc]

/-- A `/predict` request on a fully loaded state whose try block raises
is answered by the catch-all with the exception message as body. -/
theorem predict_tryError (a : Artifact) (meta : ModelMeta)
    (body : Option (List PyFloat)) (e : String)
    (h : predictTry a meta (body.getD []) = Except.error e) :
    predict ⟨some a, some meta⟩ body = PredictResponse.errServer e := by
  rw [predict_loaded, h]

/-- The length check fires first: a vector of the wrong length gets the
400 body carrying the expected feature names. -/
theorem predictTry_badLength (a : Artifact) (meta : ModelMeta)
    (feats : List PyFloat) (h : feats.length ≠ meta.features.length) :
    predictTry a meta feats = Except.ok (PredictResponse.errSchema
      (schemaMsg meta.features.length feats.length) meta.features) := by
  unfold predictTry
  rw [if_pos h]

/-- Sum of finite values over a cons. -/
theorem sumQ_cons (x : PyFloat) (xs : List PyFloat) :
    sumQ (x :: xs) = x.finVal + sumQ xs := by
  simp [sumQ]

/-- A list of non-negative finite floats has a non-negative sum. -/
theorem sumQ_nonneg (xs : List PyFloat)
    (h : ∀ x ∈ xs, ∃ q : ℚ, x = PyFloat.fin q ∧ 0 ≤ q) : 0 ≤ sumQ xs := by
  induction xs with
  | nil => simp [sumQ]
  | cons x xs ih =>
    rw [sumQ_cons]
    have hx : 0 ≤ x.finVal := by
      obtain ⟨q, hq, hq0⟩ := h x (List.mem_cons_self x xs)
      rw [hq]
      exact hq0
    have hxs := ih (fun y hy => h y (List.mem_cons_of_mem _ hy))
    linarith

/-- No handler writes the state: dispatch returns the input state. -/
theorem handle_snd (s : ServiceState) (r : Request) : (handle s r).2 = s := by
  cases r <;> rfl

/-- No sequence of requests changes the state. -/
theorem handleAll_snd (rs : List Request) : ∀ s, (handleAll s rs).2 = s := by
  induction rs with
  | nil => intro s; rfl
  | cons r rs ih =>
    intro s
    have hstep : (handleAll s (r :: rs)).2 = (handleAll (handle s r).2 rs).2 := rfl
    rw [hstep, ih, handle_snd]

/-! ### Claim theorems -/

/-- Claim C1: for a loaded model whose artifact returns a distribution with
exactly 2 entries, the returned `fraud_probability` is `probabilities[1]`;
with 3 or more entries it is `probabilities[1] + probabilities[2]`, keyed
solely on the entry count. -/
theorem claim_C1_aggregation (a : Artifact) (meta : ModelMeta)
    (feats probs : List PyFloat) (c : Int) (p1 : PyFloat)
    (hlen : feats.length = meta.features.length)
    (hp : a.predict_proba feats = Except.ok probs)
    (hc : a.predict feats = Except.ok c)
    (h1 : probs.get? 1 = some p1) :
    (probs.length = 2 →
      predict ⟨some a, some meta⟩ (some feats) =
        PredictResponse.ok p1 c probs meta.model_version) ∧
    (∀ p2, 3 ≤ probs.length → probs.get? 2 = some p2 →
      predict ⟨some a, some meta⟩ (some feats) =
        PredictResponse.ok (p1.add p2) c probs meta.model_version) := by
  constructor
  · intro h2
    rw [predict_loaded, Option.getD_some,
      predictTry_run a meta feats probs c p1 hlen hp
        (aggregate_two probs p1 h2 h1) hc]
  · intro p2 h3 hg2
    rw [predict_loaded, Option.getD_some,
      predictTry_run a meta feats probs c (p1.add p2) hlen hp
        (aggregate_three probs p1 p2 h3 h1 hg2) hc]

/-- Witness for C1: the three-class fixture with distribution
`[0.7, 0.2, 0.1]` scores `fraud_probability = probabilities[1] +
probabilities[2]` (that is, `0.2 + 0.1 = 0.3`). -/
theorem claim_C1_aggregation_witness :
    predict ⟨some artifact3, some meta3⟩ (some feats3) =
      PredictResponse.ok ((PyFloat.fin (2/10)).add (PyFloat.fin (1/10))) 0
        [PyFloat.fin (7/10), PyFloat.fin (2/10), PyFloat.fin (1/10)] "v1" :=
  (claim_C1_aggregation artifact3 meta3 feats3
    [PyFloat.fin (7/10), PyFloat.fin (2/10), PyFloat.fin (1/10)] 0
    (PyFloat.fin (2/10)) rfl rfl rfl rfl).2
    (PyFloat.fin (1/10)) (by decide) rfl

/-- Counterexample to claim C2 as stated: with a loaded model whose
artifact emits NaN as the fraud-class probability, the endpoint returns a
200 success response whose `fraud_probability` is the non-finite NaN —
there is no InvalidPrediction failure anywhere in the handler. -/
theorem claim_C2_nan_counterexample :
    predict ⟨some artifactNan, some meta3⟩ (some feats3) =
      PredictResponse.ok PyFloat.nan 1 [PyFloat.fin (1/2), PyFloat.nan] "v1" ∧
    (predict ⟨some artifactNan, some meta3⟩ (some feats3)).statusCode = 200 ∧
    PyFloat.nan.isFinite = false :=
  ⟨rfl, rfl, rfl⟩

/-- Claim C2 (amended): the handler performs no finiteness check; whenever
the artifact emits NaN at index 1 of a 2-entry distribution, the endpoint
returns a 200 success response that propagates the non-finite
`fraud_probability` to the caller. -/
theorem claim_C2_nan_propagates (a : Artifact) (meta : ModelMeta)
    (feats probs : List PyFloat) (c : Int)
    (hlen : feats.length = meta.features.length)
    (hp : a.predict_proba feats = Except.ok probs)
    (hc : a.predict feats = Except.ok c)
    (h2 : probs.length = 2) (h1 : probs.get? 1 = some PyFloat.nan) :
    predict ⟨some a, some meta⟩ (some feats) =
      PredictResponse.ok PyFloat.nan c probs meta.model_version ∧
    (predict ⟨some a, some meta⟩ (some feats)).statusCode = 200 ∧
    PyFloat.nan.isFinite = false := by
  have h := predict_success a meta feats probs c PyFloat.nan hlen hp
    (aggregate_two probs PyFloat.nan h2 h1) hc
  exact ⟨h, by rw [h]; rfl, rfl⟩

/-- Witness for the amended C2 at the NaN fixture. -/
theorem claim_C2_nan_propagates_witness :
    predict ⟨some artifactNan, some meta3⟩ (some feats3) =
      PredictResponse.ok PyFloat.nan 1 [PyFloat.fin (1/2), PyFloat.nan] "v1" ∧
    (predict ⟨some artifactNan, some meta3⟩ (some feats3)).statusCode = 200 ∧
    PyFloat.nan.isFinite = false :=
  claim_C2_nan_propagates artifactNan meta3 feats3
    [PyFloat.fin (1/2), PyFloat.nan] 1 rfl rfl rfl rfl rfl

/-- Counterexample to claim C3 as stated: a request carrying no feature
vector is answered by the very same SchemaMismatch-style 400 response
(carrying `expected_features`) as a wrong-length vector, not by a
distinct MalformedInput failure. -/
theorem claim_C3_no_vector_counterexample :
    predict ⟨some artifact2, some meta3⟩ none =
      PredictResponse.errSchema (schemaMsg 3 0)
        ["amount", "hour", "country_risk"] ∧
    predict ⟨some artifact2, some meta3⟩ none =
      predict ⟨some artifact2, some meta3⟩ (some []) ∧
    (predict ⟨some artifact2, some meta3⟩ none).statusCode = 400 :=
  ⟨rfl, rfl, rfl⟩

/-- Claim C3 (amended): a request body without a feature vector is read
as the empty vector (`data.get` with default `[]`); whenever the loaded
schema is non-empty it fails with the same 400 schema-mismatch response —
message and `expected_features` included — that a wrong-length vector
gets; there is no distinct MalformedInput failure. -/
theorem claim_C3_missing_vector (a : Artifact) (meta : ModelMeta)
    (hne : meta.features ≠ []) :
    predict ⟨some a, some meta⟩ none =
      PredictResponse.errSchema (schemaMsg meta.features.length 0)
        meta.features ∧
    predict ⟨some a, some meta⟩ none = predict ⟨some a, some meta⟩ (some []) ∧
    (predict ⟨some a, some meta⟩ none).statusCode = 400 := by
  have h0 : meta.features.length ≠ 0 := fun h => hne (List.length_eq_zero.mp h)
  have hlen : (([] : List PyFloat)).length ≠ meta.features.length :=
    fun h => h0 h.symm
  have key := predictTry_badLength a meta [] hlen
  refine ⟨?_, ?_, ?_⟩
  · rw [predict_loaded, Option.getD_none, key]
    rfl
  · rw [predict_loaded, Option.getD_none, predict_loaded, Option.getD_some]
  · rw [predict_loaded, Option.getD_none, key]
    rfl

/-- Witness for the amended C3 at the three-feature fixture. -/
theorem claim_C3_missing_vector_witness :
    predict ⟨some artifact2, some meta3⟩ none =
      PredictResponse.errSchema (schemaMsg meta3.features.length 0)
        meta3.features ∧
    predict ⟨some artifact2, some meta3⟩ none =
      predict ⟨some artifact2, some meta3⟩ (some []) ∧
    (predict ⟨some artifact2, some meta3⟩ none).statusCode = 400 :=
  claim_C3_missing_vector artifact2 meta3 (by decide)

/-- Claim C4: with a fully loaded state, any vector whose length differs
from the metadata's feature-name count is rejected with the 400
schema-mismatch response whose `expected_features` is exactly the loaded
feature-name list. -/
theorem claim_C4_schema_mismatch (a : Artifact) (meta : ModelMeta)
    (feats : List PyFloat) (h : feats.length ≠ meta.features.length) :
    predict ⟨some a, some meta⟩ (some feats) =
      PredictResponse.errSchema (schemaMsg meta.features.length feats.length)
        meta.features ∧
    (predict ⟨some a, some meta⟩ (some feats)).statusCode = 400 := by
  have key := predictTry_badLength a meta feats h
  exact ⟨by rw [predict_loaded, Option.getD_some, key],
    by rw [predict_loaded, Option.getD_some, key]; rfl⟩

/-- Witness for C4: a 2-entry vector against the 3-feature schema. -/
theorem claim_C4_schema_mismatch_witness :
    predict ⟨some artifact2, some meta3⟩
      (some [PyFloat.fin 1, PyFloat.fin 2]) =
      PredictResponse.errSchema (schemaMsg meta3.features.length 2)
        meta3.features ∧
    (predict ⟨some artifact2, some meta3⟩
      (some [PyFloat.fin 1, PyFloat.fin 2])).statusCode = 400 :=
  claim_C4_schema_mismatch artifact2 meta3 [PyFloat.fin 1, PyFloat.fin 2]
    (by decide)

/-- Claim C5: on a valid request whose artifact returns a well-formed
distribution of at least 2 entries (non-negative finite entries summing
to 1), the returned `fraud_probability` is a finite value in `[0,1]` and
the echoed `probabilities` sum to 1 (exactly, in the rational model,
hence within any floating tolerance). -/
theorem claim_C5_probability_bounds (a : Artifact) (meta : ModelMeta)
    (feats probs : List PyFloat) (c : Int)
    (hlen : feats.length = meta.features.length)
    (hp : a.predict_proba feats = Except.ok probs)
    (hc : a.predict feats = Except.ok c)
    (h2 : 2 ≤ probs.length)
    (hfin : ∀ x ∈ probs, ∃ q : ℚ, x = PyFloat.fin q ∧ 0 ≤ q)
    (hsum : sumQ probs = 1) :
    ∃ q : ℚ, predict ⟨some a, some meta⟩ (some feats) =
        PredictResponse.ok (PyFloat.fin q) c probs meta.model_version ∧
      0 ≤ q ∧ q ≤ 1 ∧ sumQ probs = 1 := by
  obtain ⟨x, y, rest, rfl⟩ : ∃ x y rest, probs = x :: y :: rest := by
    cases probs with
    | nil => simp at h2
    | cons x t =>
      cases t with
      | nil => simp at h2
      | cons y rest => exact ⟨x, y, rest, rfl⟩
  obtain ⟨qx, hqx, hqx0⟩ := hfin x (by simp)
  obtain ⟨qy, hqy, hqy0⟩ := hfin y (by simp)
  subst hqx
  subst hqy
  cases rest with
  | nil =>
    refine ⟨qy, ?_, hqy0, ?_, hsum⟩
    · exact predict_success a meta feats _ c _ hlen hp
        (aggregate_two _ _ rfl rfl) hc
    · have hs := hsum
      rw [sumQ_cons, sumQ_cons] at hs
      simp only [PyFloat.finVal, sumQ, List.map_nil, List.sum_nil] at hs
      linarith
  | cons z rest2 =>
    obtain ⟨qz, hqz, hqz0⟩ := hfin z (by simp)
    subst hqz
    have hr : 0 ≤ sumQ rest2 :=
      sumQ_nonneg rest2 (fun w hw => hfin w (by simp [hw]))
    have hs := hsum
    rw [sumQ_cons, sumQ_cons, sumQ_cons] at hs
    simp only [PyFloat.finVal] at hs
    refine ⟨qy + qz, ?_, by linarith, by linarith, hsum⟩
    exact predict_success a meta feats _ c _ hlen hp
      (aggregate_three
        (PyFloat.fin qx :: PyFloat.fin qy :: PyFloat.fin qz :: rest2)
        (PyFloat.fin qy) (PyFloat.fin qz) (by simp) rfl rfl) hc

/-- Witness for C5 at the `[0, 1]` binary fixture. -/
theorem claim_C5_probability_bounds_witness :
    ∃ q : ℚ, predict ⟨some artifactUnit, some meta3⟩ (some feats3) =
        PredictResponse.ok (PyFloat.fin q) 1
          [PyFloat.fin 0, PyFloat.fin 1] "v1" ∧
      0 ≤ q ∧ q ≤ 1 ∧ sumQ [PyFloat.fin 0, PyFloat.fin 1] = 1 :=
  claim_C5_probability_bounds artifactUnit meta3 feats3
    [PyFloat.fin 0, PyFloat.fin 1] 1 rfl rfl rfl (by decide)
    (by
      intro x hx
      simp only [List.mem_cons, List.not_mem_nil, or_false] at hx
      rcases hx with h | h
      · exact ⟨0, h, le_refl 0⟩
      · exact ⟨1, h, zero_le_one⟩)
    (by simp [sumQ, PyFloat.finVal])

/-- Claim C6: the health operation is total; it reports DOWN with no
version before a load and UP with the loaded metadata's version after a
successful load. -/
theorem claim_C6_health (s0 s1 : ServiceState) (a : Artifact)
    (meta : ModelMeta)
    (h0m : s0.model = none) (h0meta : s0.model_meta = none)
    (h1m : s1.model = some a) (h1meta : s1.model_meta = some meta) :
    health s0 = ⟨"DOWN", false, none⟩ ∧
    health s1 = ⟨"UP", true, some meta.model_version⟩ := by
  constructor
  · simp [health, h0m, h0meta]
  · simp [health, h1m, h1meta]

/-- Witness for C6 at the unloaded and loaded fixture states. -/
theorem claim_C6_health_witness :
    health ⟨none, none⟩ = ⟨"DOWN", false, none⟩ ∧
    health ⟨some artifact2, some meta3⟩ = ⟨"UP", true, some "v1"⟩ :=
  claim_C6_health ⟨none, none⟩ ⟨some artifact2, some meta3⟩
    artifact2 meta3 rfl rfl rfl rfl

/-- Claim C7: with no model loaded, scoring fails 503 with the
model-not-loaded message; with no metadata loaded, the feature-schema
operation fails 503 instead of returning any schema. -/
theorem claim_C7_not_ready (s t : ServiceState)
    (body : Option (List PyFloat))
    (hm : s.model = none) (ht : t.model_meta = none) :
    predict s body = PredictResponse.errNotLoaded ∧
    (predict s body).statusCode = 503 ∧
    (predict s body).errorMsg = some "Model not loaded" ∧
    get_features t = FeaturesResult.errNotLoaded ∧
    (get_features t).statusCode = 503 := by
  have h1 : predict s body = PredictResponse.errNotLoaded := by
    unfold predict
    rw [hm]
  have h2 : get_features t = FeaturesResult.errNotLoaded := by
    unfold get_features
    rw [ht]
  exact ⟨h1, by rw [h1]; rfl, by rw [h1]; rfl, h2, by rw [h2]; rfl⟩

/-- Witness for C7 at the fully unloaded state. -/
theorem claim_C7_not_ready_witness :
    predict ⟨none, none⟩ (some feats3) = PredictResponse.errNotLoaded ∧
    (predict ⟨none, none⟩ (some feats3)).statusCode = 503 ∧
    (predict ⟨none, none⟩ (some feats3)).errorMsg =
      some "Model not loaded" ∧
    get_features ⟨none, none⟩ = FeaturesResult.errNotLoaded ∧
    (get_features ⟨none, none⟩).statusCode = 503 :=
  claim_C7_not_ready ⟨none, none⟩ ⟨none, none⟩ (some feats3) rfl rfl

/-- Counterexample to claim C8 as stated: the catch-all surfaces
`str(e)` itself as the error body, so two artifacts raising different
internal exceptions produce different 500 bodies — the message is the
internal exception detail, not a generic one. -/
theorem claim_C8_leak_counterexample :
    predict ⟨some artifactRaiseA, some meta3⟩ (some feats3) =
      PredictResponse.errServer
        "ValueError: Input contains infinity or a value too large" ∧
    predict ⟨some artifactRaiseB, some meta3⟩ (some feats3) =
      PredictResponse.errServer
        "XGBoostError: value 0 for Parameter num_class should be greater equal to 1" ∧
    predict ⟨some artifactRaiseA, some meta3⟩ (some feats3) ≠
      predict ⟨some artifactRaiseB, some meta3⟩ (some feats3) :=
  ⟨rfl, rfl, by decide⟩

/-- Claim C8 (amended): any exception raised by the artifact during
probability or class computation is caught and surfaced as a 500
response whose error body is the exception's own message (`str(e)`), not
a generic one; the state is unchanged, so the service answers every
subsequent request as before. -/
theorem claim_C8_exception_surfaced (a : Artifact) (meta : ModelMeta)
    (feats : List PyFloat) (e : String)
    (hlen : feats.length = meta.features.length)
    (he : a.predict_proba feats = Except.error e ∨
      ∃ probs fp, a.predict_proba feats = Except.ok probs ∧
        aggregate probs = Except.ok fp ∧
        a.predict feats = Except.error e) :
    predict ⟨some a, some meta⟩ (some feats) =
      PredictResponse.errServer e ∧
    (predict ⟨some a, some meta⟩ (some feats)).statusCode = 500 ∧
    (predict ⟨some a, some meta⟩ (some feats)).errorMsg = some e ∧
    (handle ⟨some a, some meta⟩ (Request.scoreReq (some feats))).2 =
      (⟨some a, some meta⟩ : ServiceState) := by
  have key : predictTry a meta feats = Except.error e := by
    rcases he with h | ⟨probs, fp, hp, hagg, hc⟩
    · unfold predictTry
      rw [if_neg (not_not_intro hlen)]
      simp only [h]
    · unfold predictTry
      rw [if_neg (not_not_intro hlen)]
      simp only [hp, hagg, hc]
  have h1 := predict_tryError a meta (some feats) e key
  exact ⟨h1, by rw [h1]; rfl, by rw [h1]; rfl, rfl⟩

/-- Witness for the amended C8 at the raising fixture. -/
theorem claim_C8_exception_surfaced_witness :
    predict ⟨some artifactRaiseA, some meta3⟩ (some feats3) =
      PredictResponse.errServer
        "ValueError: Input contains infinity or a value too large" ∧
    (predict ⟨some artifactRaiseA, some meta3⟩
      (some feats3)).statusCode = 500 ∧
    (predict ⟨some artifactRaiseA, some meta3⟩
      (some feats3)).errorMsg =
      some "ValueError: Input contains infinity or a value too large" ∧
    (handle ⟨some artifactRaiseA, some meta3⟩
      (Request.scoreReq (some feats3))).2 =
      (⟨some artifactRaiseA, some meta3⟩ : ServiceState) :=
  claim_C8_exception_surfaced artifactRaiseA meta3 feats3
    "ValueError: Input contains infinity or a value too large"
    rfl (Or.inl rfl)

/-- Claim C9: no operation mutates the loaded state — any sequence of
requests returns the starting state — and scoring the same vector twice
in a row yields identical responses. -/
theorem claim_C9_stateless (s : ServiceState) (rs : List Request)
    (b : Option (List PyFloat)) :
    (handleAll s rs).2 = s ∧
    (handle s (Request.scoreReq b)).2 = s ∧
    (handle ((handle s (Request.scoreReq b)).2)
        (Request.scoreReq b)).1 =
      (handle s (Request.scoreReq b)).1 :=
  ⟨handleAll_snd rs s, rfl, rfl⟩

/-- Claim C10: with a loaded model and correct-length vector, a
distribution of fewer than 2 entries is never a success and is not a
dedicated UnsupportedModelShape failure: the `probabilities[1]` subscript
raises an IndexError which the generic catch-all turns into the 500
server-error response. -/
theorem claim_C10_short_distribution (a : Artifact) (meta : ModelMeta)
    (feats probs : List PyFloat)
    (hlen : feats.length = meta.features.length)
    (hp : a.predict_proba feats = Except.ok probs)
    (hshort : probs.length < 2) :
    predict ⟨some a, some meta⟩ (some feats) =
      PredictResponse.errServer ("index " ++ toString 1 ++
        " is out of bounds for axis 0 with size " ++
        toString probs.length) ∧
    (predict ⟨some a, some meta⟩ (some feats)).statusCode = 500 := by
  have key : predictTry a meta feats = Except.error ("index " ++
      toString 1 ++ " is out of bounds for axis 0 with size " ++
      toString probs.length) := by
    unfold predictTry
    rw [if_neg (not_not_intro hlen)]
    simp only [hp, aggregate_short probs hshort]
  have h1 := predict_tryError a meta (some feats) _ key
  exact ⟨h1, by rw [h1]; rfl⟩

/-- Witness for C10 at the single-entry fixture. -/
theorem claim_C10_short_distribution_witness :
    predict ⟨some artifact1, some meta3⟩ (some feats3) =
      PredictResponse.errServer ("index " ++ toString 1 ++
        " is out of bounds for axis 0 with size " ++
        toString ([PyFloat.fin 1] : List PyFloat).length) ∧
    (predict ⟨some artifact1, some meta3⟩ (some feats3)).statusCode = 500 :=
  claim_C10_short_distribution artifact1 meta3 feats3 [PyFloat.fin 1]
    rfl rfl (by decide)

end FraudDetection
